import Mathlib

/-!
Shallow embedding of `src/animated_visualizer.py` (function `animateTSP` and its
inner `init` / `update` closures), together with theorems settling the claims
about the frame-sampling policy, the per-frame panel updates and the
axis-bound computations.

Conventions of the embedding:
* Python lists become Lean `List`s; 2D points become `ℚ × ℚ`; scalar histories
  become `List ℚ` (rationals stand for the Python floats; every constant the
  claims mention is exactly representable).
* A Python expression that can raise (`history[0]`, `points[i, 0]`, `max([])`)
  is modelled with `Option`: `none` is an uncaught exception.
* The optional arguments `temp_history` / `weight_history` become
  `Option (List ℚ)`; Python truthiness `if temp_history:` is "present and
  non-empty".
-/

namespace AnimatedVisualizer

/-- The fixed frame-budget divisor `9000` from line 29 of the source. -/
def frameBudget : ℕ := 9000

/-- `key_frames_mult = max(1, len(history) // 9000)` (source line 29):
the sampling stride derived from the tour-history length. -/
def keyFramesMult (historyLen : ℕ) : ℕ := max 1 (historyLen / frameBudget)

/-- Python `range(0, stop, step)` (for `step > 0`) as the list
`[0, step, 2*step, ...]` of all multiples of `step` below `stop`. -/
def pyRange (stop step : ℕ) : List ℕ := List.range' 0 ((stop + step - 1) / step) step

/-- The logical frames handed to `update` by the `FuncAnimation` driver:
`frames=range(0, len(history), key_frames_mult)` (source line 148). -/
def driverFrames (historyLen : ℕ) : List ℕ :=
  pyRange historyLen (keyFramesMult historyLen)

/-- `actual_frame = frame * key_frames_mult` (source line 90): the history
index the per-frame `update` derives from the frame argument it receives. -/
def actualFrame (historyLen frame : ℕ) : ℕ := frame * keyFramesMult historyLen

/-- Binary minimum on ℚ, written as Python's comparison-and-keep fold step
(Mathlib's lattice `min` is definitionally opaque to evaluation). -/
def qmin (a b : ℚ) : ℚ := if b < a then b else a

/-- Binary maximum on ℚ, same remark as `qmin`. -/
def qmax (a b : ℚ) : ℚ := if a < b then b else a

/-- Python `min` over a non-empty list; the `[]` case is arbitrary (the
embedding only applies it under guards that ensure non-emptiness; where Python
could raise on an empty list the callers below test emptiness explicitly). -/
def listMin : List ℚ → ℚ
  | [] => 0
  | x :: xs => xs.foldl qmin x

/-- Python `max` over a non-empty list, same convention as `listMin`. -/
def listMax : List ℚ → ℚ
  | [] => 0
  | x :: xs => xs.foldl qmax x

/-- `[points[i] for i in tour]`: looks every tour index up in the point set,
failing (exception) on the first out-of-range index. -/
def mapPoints (points : List (ℚ × ℚ)) : List ℕ → Option (List (ℚ × ℚ))
  | [] => some []
  | i :: is =>
    (points[i]?).bind fun p => (mapPoints points is).map fun ps => p :: ps

/-- Pad a string with leading zeros to width `d` (helper for `formatFixed`). -/
def padZeros (d : ℕ) (s : String) : String :=
  String.mk (List.replicate (d - s.length) '0') ++ s

/-- Python fixed-point formatting of a rational to `d` decimal places
(`f"{q:.6f}"` and `f"{q:.2f}"` in the source; half-up rounding on exact
rationals, which agrees with Python's float formatting on every value this
development evaluates it on). -/
def formatFixed (d : ℕ) (q : ℚ) : String :=
  let scaled : ℤ := Int.fdiv (q.num * 2 * 10 ^ d + q.den) (2 * q.den)
  let sign := if scaled < 0 then "-" else ""
  let n := scaled.natAbs
  sign ++ toString (n / 10 ^ d) ++ "." ++ padZeros d (toString (n % 10 ^ d))

/-- The `x`-axis limits `ax1.set_xlim` computed on source lines 61/63 from a
coordinate list: 5% of the span as padding on each side. -/
def paddedLims (cs : List ℚ) : ℚ × ℚ :=
  (listMin cs - (listMax cs - listMin cs) * (1/20),
   listMax cs + (listMax cs - listMin cs) * (1/20))

/-- The temperature panel's axis limits as `init` (lines 71-74) and `update`
(lines 118-120) both compute them from the full temperature history:
`xlim = (0, len)` and `ylim = (min*0.9, max*1.1)`. -/
def tempAxisLims (th : List ℚ) : (ℚ × ℚ) × (ℚ × ℚ) :=
  (((0 : ℚ), (th.length : ℚ)), (listMin th * (9/10), listMax th * (11/10)))

/-- The cost panel's axis limits as `init` (lines 79-82) and `update`
(lines 138-140) both compute them from the full cost history:
`xlim = (0, len)` and `ylim = (min*0.95, max*1.05)`. -/
def costAxisLims (wh : List ℚ) : (ℚ × ℚ) × (ℚ × ℚ) :=
  (((0 : ℚ), (wh.length : ℚ)), (listMin wh * (19/20), listMax wh * (21/20)))

/-- The axis state established by `init` (source lines 53-86); only the
pieces the claims are about.  `none` in an optional field means the guarded
branch (`if temp_history:` / `if weight_history:`) did not run. -/
structure InitState where
  tourXlim : ℚ × ℚ
  tourYlim : ℚ × ℚ
  tempXlim : Option (ℚ × ℚ)
  tempYlim : Option (ℚ × ℚ)
  costXlim : Option (ℚ × ℚ)
  costYlim : Option (ℚ × ℚ)
  deriving DecidableEq, Repr

/-- The pure part of `init`, given the successfully looked-up coordinates
`pts0` of the points referenced by `history[0]`. -/
def initStateOf (pts0 : List (ℚ × ℚ))
    (tempHistory costHistory : Option (List ℚ)) : InitState :=
  ⟨paddedLims (pts0.map Prod.fst),
   paddedLims (pts0.map Prod.snd),
   (match tempHistory with
    | some th => if th = [] then none else some (tempAxisLims th).1
    | none => none),
   (match tempHistory with
    | some th => if th = [] then none else some (tempAxisLims th).2
    | none => none),
   (match costHistory with
    | some wh => if wh = [] then none else some (costAxisLims wh).1
    | none => none),
   (match costHistory with
    | some wh => if wh = [] then none else some (costAxisLims wh).2
    | none => none)⟩

/-- The `init` closure (source lines 53-86): draws the cities of `history[0]`,
sets the tour panel's padded axis box from those coordinates, and sets the
temperature/cost axis bounds from the full optional histories when they are
truthy.  Returns `none` exactly when Python would raise: empty `history`
(line 56 `history[0]`), an out-of-range point index in `history[0]`
(line 56 `points[i]`), or an empty first tour (line 61 `max([])`). -/
def init (points : List (ℚ × ℚ)) (history : List (List ℕ))
    (tempHistory costHistory : Option (List ℚ)) : Option InitState :=
  (history[0]?).bind fun tour0 =>
    (mapPoints points tour0).bind fun pts0 =>
      if tour0 = [] then none
      else some (initStateOf pts0 tempHistory costHistory)

/-- Render state of the temperature panel after one frame's update
(source lines 102-120). -/
structure TempPanel where
  iterations : List ℕ
  temps : List ℚ
  marker : ℕ × ℚ
  title : String
  xlim : ℚ × ℚ
  ylim : ℚ × ℚ
  deriving DecidableEq, Repr

/-- Render state of the cost panel after one frame's update
(source lines 122-140). -/
structure CostPanel where
  iterations : List ℕ
  weights : List ℚ
  marker : ℕ × ℚ
  title : String
  xlim : ℚ × ℚ
  ylim : ℚ × ℚ
  deriving DecidableEq, Repr

/-- Everything one call of `update` changes; `tourPath = none` /
`tempPanel = none` / `costPanel = none` mean the corresponding guarded block
was skipped for this frame. -/
structure FrameState where
  tourPath : Option (List (ℚ × ℚ))
  tempPanel : Option TempPanel
  costPanel : Option CostPanel
  deriving DecidableEq, Repr

/-- The temperature block of `update` (source lines 102-120), guarded by
`if temp_history and actual_frame < len(temp_history)`.  Inside the guard no
lookup can fail, so a skipped block is plain `none`. -/
def tempPanelUpdate : Option (List ℚ) → ℕ → Option TempPanel
  | none, _ => none
  | some th, actual =>
    if th = [] ∨ th.length ≤ actual then none
    else
      some ⟨List.range (actual + 1),
            th.take (actual + 1),
            (actual, th.getD actual 0),
            "Temperature: " ++ formatFixed 6 (th.getD actual 0),
            (tempAxisLims th).1,
            (tempAxisLims th).2⟩

/-- The cost block of `update` (source lines 122-140), guarded by
`if weight_history and actual_frame < len(weight_history)`. -/
def costPanelUpdate : Option (List ℚ) → ℕ → Option CostPanel
  | none, _ => none
  | some wh, actual =>
    if wh = [] ∨ wh.length ≤ actual then none
    else
      some ⟨List.range (actual + 1),
            wh.take (actual + 1),
            (actual, wh.getD actual 0),
            "Cost: " ++ formatFixed 2 (wh.getD actual 0),
            (costAxisLims wh).1,
            (costAxisLims wh).2⟩

/-- The tour block of `update` (source lines 92-100), guarded by
`if actual_frame < len(history)`.  The outer `Option` is exception
propagation (`history[actual_frame][0]` on an empty tour, or an out-of-range
point index); the inner `Option` is `none` when the guard was false and the
block skipped. -/
def tourPathUpdate (points : List (ℚ × ℚ)) (history : List (List ℕ))
    (actual : ℕ) : Option (Option (List (ℚ × ℚ))) :=
  if actual < history.length then
    (history[actual]?).bind fun tour =>
      (tour[0]?).bind fun h0 =>
        (mapPoints points (tour ++ [h0])).map fun path => some path
  else some none

/-- The `update` closure (source lines 88-142): derives `actual_frame` from
the received frame argument and runs the three guarded panel blocks in order.
`none` means the call raised. -/
def update (points : List (ℚ × ℚ)) (history : List (List ℕ))
    (tempHistory costHistory : Option (List ℚ)) (frame : ℕ) : Option FrameState :=
  (tourPathUpdate points history (actualFrame history.length frame)).map fun tourPath =>
    ⟨tourPath, tempPanelUpdate tempHistory (actualFrame history.length frame),
     costPanelUpdate costHistory (actualFrame history.length frame)⟩

/-- Modelled from the spec (§4.2/§4.3 wording for claim C6): the tour panel's
x-bounds as the spec states them, computed from the x-coordinates of the
*full Point Set* with 5% padding.  To be compared with what `init` actually
computes (coordinates of the points referenced by `history[0]`). -/
def specTourXBounds (points : List (ℚ × ℚ)) : ℚ × ℚ :=
  paddedLims (points.map Prod.fst)

/-- The guard of the temperature/cost block is false: the optional history is
absent, empty, or the actual index is outside its range. -/
def panelSkipped (optHistory : Option (List ℚ)) (actual : ℕ) : Prop :=
  match optHistory with
  | none => True
  | some l => l = [] ∨ l.length ≤ actual

/-! ### Helper lemmas -/

theorem mapPoints_cons_eq_some {points : List (ℚ × ℚ)} {i : ℕ} {is : List ℕ}
    {l : List (ℚ × ℚ)} :
    mapPoints points (i :: is) = some l ↔
      ∃ p ps, points[i]? = some p ∧ mapPoints points is = some ps ∧ l = p :: ps := by
  simp only [mapPoints, Option.bind_eq_some, Option.map_eq_some']
  constructor
  · rintro ⟨p, hp, ps, hps, h⟩
    exact ⟨p, ps, hp, hps, h.symm⟩
  · rintro ⟨p, ps, hp, hps, rfl⟩
    exact ⟨p, hp, ps, hps, rfl⟩

theorem mapPoints_append (points : List (ℚ × ℚ)) (l₁ l₂ : List ℕ) :
    mapPoints points (l₁ ++ l₂) =
      (mapPoints points l₁).bind fun a => (mapPoints points l₂).map fun b => a ++ b := by
  induction l₁ with
  | nil =>
    simp only [List.nil_append, mapPoints, Option.some_bind]
    cases mapPoints points l₂ <;> simp
  | cons i is ih =>
    cases hp : points[i]? with
    | none => simp [mapPoints, hp]
    | some p =>
      cases h1 : mapPoints points is with
      | none =>
        have h3 : mapPoints points (is ++ l₂) = none := by rw [ih, h1]; rfl
        simp [mapPoints, hp, h1, h3]
      | some ps =>
        cases h2 : mapPoints points l₂ with
        | none =>
          have h3 : mapPoints points (is ++ l₂) = none := by rw [ih, h1, h2]; rfl
          simp [mapPoints, hp, h1, h2, h3]
        | some l =>
          have h3 : mapPoints points (is ++ l₂) = some (ps ++ l) := by
            rw [ih, h1, h2]; rfl
          simp [mapPoints, hp, h1, h2, h3]

theorem mapPoints_eq_none {points : List (ℚ × ℚ)} {l : List ℕ}
    (h : ∃ i ∈ l, points.length ≤ i) : mapPoints points l = none := by
  induction l with
  | nil => simp at h
  | cons j js ih =>
    rcases h with ⟨i, hi, hlen⟩
    rcases List.mem_cons.mp hi with rfl | hmem
    · simp [mapPoints, List.getElem?_eq_none hlen]
    · rw [mapPoints, ih ⟨i, hmem, hlen⟩]
      cases points[j]? <;> simp

theorem init_eq_some {points : List (ℚ × ℚ)} {history : List (List ℕ)}
    {tempHistory costHistory : Option (List ℚ)} {s : InitState}
    (h : init points history tempHistory costHistory = some s) :
    ∃ tour0 pts0, history[0]? = some tour0 ∧ mapPoints points tour0 = some pts0 ∧
      tour0 ≠ [] ∧ s = initStateOf pts0 tempHistory costHistory := by
  unfold init at h
  cases e0 : history[0]? with
  | none => rw [e0] at h; simp at h
  | some tour0 =>
    rw [e0] at h
    simp only [Option.some_bind] at h
    cases e1 : mapPoints points tour0 with
    | none => rw [e1] at h; simp at h
    | some pts0 =>
      rw [e1] at h
      simp only [Option.some_bind] at h
      by_cases ht : tour0 = []
      · simp [ht] at h
      · rw [if_neg ht] at h
        exact ⟨tour0, pts0, rfl, e1, ht, (Option.some.injEq _ _ ▸ h).symm⟩

theorem tempPanelUpdate_inv {th : List ℚ} {a : ℕ} {p : TempPanel}
    (h : tempPanelUpdate (some th) a = some p) :
    th ≠ [] ∧ a < th.length ∧
      p = ⟨List.range (a + 1), th.take (a + 1), (a, th.getD a 0),
           "Temperature: " ++ formatFixed 6 (th.getD a 0),
           (tempAxisLims th).1, (tempAxisLims th).2⟩ := by
  by_cases hg : th = [] ∨ th.length ≤ a
  · simp [tempPanelUpdate, hg] at h
  · push_neg at hg
    refine ⟨hg.1, hg.2, ?_⟩
    have h2 := h
    simp only [tempPanelUpdate] at h2
    rw [if_neg (by push_neg; exact hg)] at h2
    exact (Option.some.injEq _ _ ▸ h2).symm

theorem costPanelUpdate_inv {wh : List ℚ} {a : ℕ} {c : CostPanel}
    (h : costPanelUpdate (some wh) a = some c) :
    wh ≠ [] ∧ a < wh.length ∧
      c = ⟨List.range (a + 1), wh.take (a + 1), (a, wh.getD a 0),
           "Cost: " ++ formatFixed 2 (wh.getD a 0),
           (costAxisLims wh).1, (costAxisLims wh).2⟩ := by
  by_cases hg : wh = [] ∨ wh.length ≤ a
  · simp [costPanelUpdate, hg] at h
  · push_neg at hg
    refine ⟨hg.1, hg.2, ?_⟩
    have h2 := h
    simp only [costPanelUpdate] at h2
    rw [if_neg (by push_neg; exact hg)] at h2
    exact (Option.some.injEq _ _ ▸ h2).symm

theorem tempPanelUpdate_of_lt {th : List ℚ} {a : ℕ} (h : a < th.length) :
    tempPanelUpdate (some th) a =
      some ⟨List.range (a + 1), th.take (a + 1), (a, th.getD a 0),
            "Temperature: " ++ formatFixed 6 (th.getD a 0),
            (tempAxisLims th).1, (tempAxisLims th).2⟩ := by
  have hne : th ≠ [] := by rintro rfl; simp at h
  simp only [tempPanelUpdate]
  rw [if_neg]
  push_neg
  exact ⟨hne, h⟩

theorem costPanelUpdate_of_lt {wh : List ℚ} {a : ℕ} (h : a < wh.length) :
    costPanelUpdate (some wh) a =
      some ⟨List.range (a + 1), wh.take (a + 1), (a, wh.getD a 0),
            "Cost: " ++ formatFixed 2 (wh.getD a 0),
            (costAxisLims wh).1, (costAxisLims wh).2⟩ := by
  have hne : wh ≠ [] := by rintro rfl; simp at h
  simp only [costPanelUpdate]
  rw [if_neg]
  push_neg
  exact ⟨hne, h⟩

theorem tempPanelUpdate_of_skipped {tempHistory : Option (List ℚ)} {a : ℕ}
    (h : panelSkipped tempHistory a) : tempPanelUpdate tempHistory a = none := by
  cases tempHistory with
  | none => rfl
  | some th =>
    simp only [tempPanelUpdate]
    exact if_pos h

theorem costPanelUpdate_of_skipped {costHistory : Option (List ℚ)} {a : ℕ}
    (h : panelSkipped costHistory a) : costPanelUpdate costHistory a = none := by
  cases costHistory with
  | none => rfl
  | some wh =>
    simp only [costPanelUpdate]
    exact if_pos h

theorem tourPathUpdate_of_valid {points : List (ℚ × ℚ)} {history : List (List ℕ)}
    {actual : ℕ} {tour : List ℕ} {pts : List (ℚ × ℚ)}
    (htour : history[actual]? = some tour) (hne : tour ≠ [])
    (hpts : mapPoints points tour = some pts) :
    tourPathUpdate points history actual = some (some (pts ++ pts.take 1)) := by
  have hlt : actual < history.length := by
    rcases List.getElem?_eq_some_iff.mp htour with ⟨hl, _⟩
    exact hl
  obtain ⟨t0, ts, rfl⟩ : ∃ t0 ts, tour = t0 :: ts := by
    cases tour with
    | nil => exact absurd rfl hne
    | cons t0 ts => exact ⟨t0, ts, rfl⟩
  rcases mapPoints_cons_eq_some.mp hpts with ⟨p0, ps, hp0, _, rfl⟩
  rw [tourPathUpdate, if_pos hlt, htour]
  simp only [Option.some_bind, List.getElem?_cons_zero]
  rw [mapPoints_append, hpts]
  simp [mapPoints, hp0]

theorem update_of_tour {points : List (ℚ × ℚ)} {history : List (List ℕ)}
    {tempHistory costHistory : Option (List ℚ)} {frame : ℕ}
    {tp : Option (List (ℚ × ℚ))}
    (h : tourPathUpdate points history (actualFrame history.length frame) = some tp) :
    update points history tempHistory costHistory frame =
      some ⟨tp, tempPanelUpdate tempHistory (actualFrame history.length frame),
            costPanelUpdate costHistory (actualFrame history.length frame)⟩ := by
  rw [update, h]
  rfl

theorem update_of_tour_none {points : List (ℚ × ℚ)} {history : List (List ℕ)}
    {tempHistory costHistory : Option (List ℚ)} {frame : ℕ}
    (h : tourPathUpdate points history (actualFrame history.length frame) = none) :
    update points history tempHistory costHistory frame = none := by
  rw [update, h]
  rfl

theorem takeSucc_getLast {l : List ℚ} {n : ℕ} (h : n < l.length) :
    (l.take (n + 1)).getLast? = l[n]? := by
  rw [List.getLast?_eq_getElem?]
  have hlen : (l.take (n + 1)).length = n + 1 := by
    rw [List.length_take]; omega
  rw [hlen, Nat.add_sub_cancel]
  exact List.getElem?_take_of_lt (Nat.lt_succ_self n)

/-! ### Claims -/

/-- C1: the claim `actual_index(f) = f` fails on the code.  For a tour history
of length 90000 the stride is 10 and the driver does enumerate exactly the
9000 frames `0, 10, ..., 89990` (each `≤ 89999`), but `update` multiplies the
received frame by the stride a second time: the enumerated frame 10 is mapped
to history index 100, not 10. -/
theorem c1_stride_applied_twice :
    keyFramesMult 90000 = 10 ∧
    driverFrames 90000 = List.range' 0 9000 10 ∧
    (driverFrames 90000).length = 9000 ∧
    10 ∈ driverFrames 90000 ∧
    actualFrame 90000 10 = 100 ∧
    actualFrame 90000 10 ≠ 10 := by
  have hdf : driverFrames 90000 = List.range' 0 9000 10 := by
    simp [driverFrames, pyRange, keyFramesMult, frameBudget]
  refine ⟨by decide, hdf, ?_, ?_, by decide, by decide⟩
  · rw [hdf, List.length_range']
  · rw [hdf, List.mem_range']
    exact ⟨1, by omega, by omega⟩

/-- C2: the sampling stride is `max(1, ⌊L / 9000⌋)`, hence always `≥ 1`; for
an empty tour history the stride defaults to 1 (the integer division cannot
fail) and the driver enumerates zero frames. -/
theorem c2_stride_formula (L : ℕ) :
    keyFramesMult L = max 1 (L / 9000) ∧
    1 ≤ keyFramesMult L ∧
    keyFramesMult 0 = 1 ∧
    driverFrames 0 = [] :=
  ⟨rfl, le_max_left 1 _, by decide, by decide⟩

/-- C3: on every frame whose actual index lies inside the temperature
history, the temperature block redraws exactly the prefix
`temp_history[0 .. actual]` (length `actual + 1`, last element
`temp_history[actual]`), puts the single current-point marker at
`(actual, temp_history[actual])`, and sets the panel title to the current
value formatted to six decimal places. -/
theorem c3_temp_visible_prefix (historyLen frame : ℕ) (th : List ℚ)
    (h : actualFrame historyLen frame < th.length) :
    ∃ p, tempPanelUpdate (some th) (actualFrame historyLen frame) = some p ∧
      p.temps = th.take (actualFrame historyLen frame + 1) ∧
      p.temps.length = actualFrame historyLen frame + 1 ∧
      p.temps.getLast? = th[actualFrame historyLen frame]? ∧
      p.marker = (actualFrame historyLen frame, th.getD (actualFrame historyLen frame) 0) ∧
      p.title =
        "Temperature: " ++ formatFixed 6 (th.getD (actualFrame historyLen frame) 0) := by
  refine ⟨_, tempPanelUpdate_of_lt h, rfl, ?_, ?_, rfl, rfl⟩
  · rw [List.length_take]
    omega
  · exact takeSucc_getLast h

/-- Witness for C3: scenario 2 of the spec, temperature history
`[100, 50, 10]` at frame index 1 (tour history length 3, stride 1):
the visible prefix is `[100, 50]`, the marker sits at `(1, 50)` and the
title reads `"Temperature: 50.000000"`. -/
theorem c3_temp_visible_prefix_witness :
    actualFrame 3 1 < ([100, 50, 10] : List ℚ).length ∧
    ([100, 50, 10] : List ℚ).take (actualFrame 3 1 + 1) = [100, 50] ∧
    ("Temperature: " ++ formatFixed 6 (([100, 50, 10] : List ℚ).getD (actualFrame 3 1) 0)
      = "Temperature: 50.000000") ∧
    (∃ p, tempPanelUpdate (some [100, 50, 10]) (actualFrame 3 1) = some p ∧
      p.temps = ([100, 50, 10] : List ℚ).take (actualFrame 3 1 + 1) ∧
      p.temps.length = actualFrame 3 1 + 1 ∧
      p.temps.getLast? = ([100, 50, 10] : List ℚ)[actualFrame 3 1]? ∧
      p.marker = (actualFrame 3 1, ([100, 50, 10] : List ℚ).getD (actualFrame 3 1) 0) ∧
      p.title =
        "Temperature: " ++ formatFixed 6 (([100, 50, 10] : List ℚ).getD (actualFrame 3 1) 0)) :=
  ⟨by decide, by decide, by decide,
   c3_temp_visible_prefix 3 1 [100, 50, 10] (by decide)⟩

/-- C4: the temperature and cost axis bounds are always computed from the
*entire* respective history, never from the visible prefix: at initialization
and on every frame alike, the temperature y-bounds are
`(min temp_history * 0.9, max temp_history * 1.1)` and the cost y-bounds are
`(min weight_history * 0.95, max weight_history * 1.05)` — independent of the
frame index. -/
theorem c4_bounds_from_full_history {points : List (ℚ × ℚ)} {history : List (List ℕ)}
    {th wh : List ℚ} {s : InitState} {actual : ℕ} {p : TempPanel} {c : CostPanel}
    (hinit : init points history (some th) (some wh) = some s)
    (hp : tempPanelUpdate (some th) actual = some p)
    (hc : costPanelUpdate (some wh) actual = some c) :
    s.tempYlim = some (listMin th * (9/10), listMax th * (11/10)) ∧
    p.ylim = (listMin th * (9/10), listMax th * (11/10)) ∧
    s.costYlim = some (listMin wh * (19/20), listMax wh * (21/20)) ∧
    c.ylim = (listMin wh * (19/20), listMax wh * (21/20)) := by
  obtain ⟨tour0, pts0, _, _, _, rfl⟩ := init_eq_some hinit
  obtain ⟨hthne, _, rfl⟩ := tempPanelUpdate_inv hp
  obtain ⟨hwhne, _, rfl⟩ := costPanelUpdate_inv hc
  refine ⟨?_, rfl, ?_, rfl⟩ <;> simp [initStateOf, hthne, hwhne, tempAxisLims, costAxisLims]

/-- Witness for C4: point set `[(0,0),(1,1)]`, first tour `[0,1]`,
temperature history `[100, 50, 10]`, cost history `[5, 4]`, frame index 0. -/
theorem c4_bounds_from_full_history_witness :
    ∃ s p c,
      init [(0,0),(1,1)] [[0,1]] (some [100,50,10]) (some [5,4]) = some s ∧
      tempPanelUpdate (some [100,50,10]) 0 = some p ∧
      costPanelUpdate (some [5,4]) 0 = some c ∧
      (s.tempYlim = some (listMin [100,50,10] * (9/10), listMax [100,50,10] * (11/10)) ∧
       p.ylim = (listMin [100,50,10] * (9/10), listMax [100,50,10] * (11/10)) ∧
       s.costYlim = some (listMin [5,4] * (19/20), listMax [5,4] * (21/20)) ∧
       c.ylim = (listMin [5,4] * (19/20), listMax [5,4] * (21/20))) := by
  have hinit : init [(0,0),(1,1)] [[0,1]] (some [100,50,10]) (some [5,4]) =
      some ⟨(-1/20, 21/20), (-1/20, 21/20), some (0, 3), some (9, 110),
            some (0, 2), some (19/5, 21/4)⟩ := by
    norm_num [init, initStateOf, mapPoints, paddedLims, tempAxisLims, costAxisLims,
      listMin, listMax, qmin, qmax]
    simp
  have hp := @tempPanelUpdate_of_lt [100,50,10] 0 (by decide)
  have hc := @costPanelUpdate_of_lt [5,4] 0 (by decide)
  exact ⟨_, _, _, hinit, hp, hc, c4_bounds_from_full_history hinit hp hc⟩

/-- C5: recomputing the axis bounds from the same full history is idempotent:
the bounds produced at initialization and by the per-frame update at any two
frame indices are the same pair of values, so the panels never rescale in the
course of one run. -/
theorem c5_bounds_idempotent {points : List (ℚ × ℚ)} {history : List (List ℕ)}
    {th wh : List ℚ} {s : InitState} {a b : ℕ}
    {p q : TempPanel} {c d : CostPanel}
    (hinit : init points history (some th) (some wh) = some s)
    (hp : tempPanelUpdate (some th) a = some p)
    (hq : tempPanelUpdate (some th) b = some q)
    (hc : costPanelUpdate (some wh) a = some c)
    (hd : costPanelUpdate (some wh) b = some d) :
    (p.ylim = q.ylim ∧ p.xlim = q.xlim ∧ s.tempYlim = some p.ylim ∧ s.tempXlim = some p.xlim) ∧
    (c.ylim = d.ylim ∧ c.xlim = d.xlim ∧ s.costYlim = some c.ylim ∧ s.costXlim = some c.xlim) := by
  obtain ⟨tour0, pts0, _, _, _, rfl⟩ := init_eq_some hinit
  obtain ⟨hthne, _, rfl⟩ := tempPanelUpdate_inv hp
  obtain ⟨_, _, rfl⟩ := tempPanelUpdate_inv hq
  obtain ⟨hwhne, _, rfl⟩ := costPanelUpdate_inv hc
  obtain ⟨_, _, rfl⟩ := costPanelUpdate_inv hd
  refine ⟨⟨rfl, rfl, ?_, ?_⟩, ⟨rfl, rfl, ?_, ?_⟩⟩ <;> simp [initStateOf, hthne, hwhne]

/-- Witness for C5: the same histories as for C4, compared at frame
indices 0 and 1. -/
theorem c5_bounds_idempotent_witness :
    ∃ s p q c d,
      init [(0,0),(1,1)] [[0,1]] (some [100,50,10]) (some [5,4]) = some s ∧
      tempPanelUpdate (some [100,50,10]) 0 = some p ∧
      tempPanelUpdate (some [100,50,10]) 1 = some q ∧
      costPanelUpdate (some [5,4]) 0 = some c ∧
      costPanelUpdate (some [5,4]) 1 = some d ∧
      ((p.ylim = q.ylim ∧ p.xlim = q.xlim ∧
        s.tempYlim = some p.ylim ∧ s.tempXlim = some p.xlim) ∧
       (c.ylim = d.ylim ∧ c.xlim = d.xlim ∧
        s.costYlim = some c.ylim ∧ s.costXlim = some c.xlim)) := by
  have hinit : init [(0,0),(1,1)] [[0,1]] (some [100,50,10]) (some [5,4]) =
      some ⟨(-1/20, 21/20), (-1/20, 21/20), some (0, 3), some (9, 110),
            some (0, 2), some (19/5, 21/4)⟩ := by
    norm_num [init, initStateOf, mapPoints, paddedLims, tempAxisLims, costAxisLims,
      listMin, listMax, qmin, qmax]
    simp
  have hp := @tempPanelUpdate_of_lt [100,50,10] 0 (by decide)
  have hq := @tempPanelUpdate_of_lt [100,50,10] 1 (by decide)
  have hc := @costPanelUpdate_of_lt [5,4] 0 (by decide)
  have hd := @costPanelUpdate_of_lt [5,4] 1 (by decide)
  exact ⟨_, _, _, _, _, hinit, hp, hq, hc, hd,
    c5_bounds_idempotent hinit hp hq hc hd⟩

/-- C6 counterexample: for point set `[(0,0),(10,10)]` and tour history
`[[0]]` (the first tour references only point 0), `init` succeeds and sets
the tour panel's x-bounds to `(0, 0)` — computed from the first tour's
points only — whereas the bounds computed from the full Point Set, as the
claim states them, would be `(-1/2, 21/2)`. -/
theorem c6_counterexample :
    ∃ s, init [(0,0),(10,10)] [[0]] none none = some s ∧
      s.tourXlim = ((0:ℚ), (0:ℚ)) ∧
      specTourXBounds [(0,0),(10,10)] = (-(1/2 : ℚ), (21/2 : ℚ)) ∧
      s.tourXlim ≠ specTourXBounds [(0,0),(10,10)] := by
  have hspec : specTourXBounds [(0,0),(10,10)] = (-(1/2 : ℚ), (21/2 : ℚ)) := by
    norm_num [specTourXBounds, paddedLims, listMin, listMax, qmin, qmax]
  refine ⟨⟨(0,0),(0,0),none,none,none,none⟩, ?_, rfl, hspec, ?_⟩
  · norm_num [init, initStateOf, mapPoints, paddedLims, listMin, listMax, qmin, qmax]
  · rw [hspec]
    intro hcontra
    rw [Prod.ext_iff] at hcontra
    norm_num at hcontra

/-- C6 (amended): the tour panel's padded axis box is computed once at
initialization from the coordinates of the points referenced by the *first
tour* `history[0]` — not from the full Point Set — with 5% padding on each
axis (the two coincide when the first tour visits every point). -/
theorem c6_tour_bounds_from_first_tour {points : List (ℚ × ℚ)}
    {history : List (List ℕ)} {tempHistory costHistory : Option (List ℚ)}
    {s : InitState}
    (hinit : init points history tempHistory costHistory = some s) :
    ∃ tour0 pts0, history[0]? = some tour0 ∧ mapPoints points tour0 = some pts0 ∧
      s.tourXlim = paddedLims (pts0.map Prod.fst) ∧
      s.tourYlim = paddedLims (pts0.map Prod.snd) := by
  obtain ⟨tour0, pts0, h0, h1, _, rfl⟩ := init_eq_some hinit
  exact ⟨tour0, pts0, h0, h1, rfl, rfl⟩

/-- Witness for C6 (amended): the counterexample input, where the box is the
degenerate one of the single point referenced by `history[0]`. -/
theorem c6_tour_bounds_from_first_tour_witness :
    ∃ tour0 pts0, ([[0]] : List (List ℕ))[0]? = some tour0 ∧
      mapPoints [(0,0),(10,10)] tour0 = some pts0 ∧
      (⟨(0,0),(0,0),none,none,none,none⟩ : InitState).tourXlim
        = paddedLims (pts0.map Prod.fst) ∧
      (⟨(0,0),(0,0),none,none,none,none⟩ : InitState).tourYlim
        = paddedLims (pts0.map Prod.snd) := by
  have hinit : init [(0,0),(10,10)] [[0]] none none =
      some ⟨(0,0),(0,0),none,none,none,none⟩ := by
    norm_num [init, initStateOf, mapPoints, paddedLims, listMin, listMax, qmin, qmax]
  exact c6_tour_bounds_from_first_tour hinit

/-- C7: on every frame whose actual index lies inside the tour history (and
whose tour is non-empty with all indices in range), the frame update succeeds
and the tour panel's path is the current tour's index list mapped through the
point set with the first vertex appended again, closing the cycle. -/
theorem c7_closed_tour_path {points : List (ℚ × ℚ)} {history : List (List ℕ)}
    {tempHistory costHistory : Option (List ℚ)} {frame : ℕ}
    {tour : List ℕ} {pts : List (ℚ × ℚ)}
    (htour : history[actualFrame history.length frame]? = some tour)
    (hne : tour ≠ []) (hpts : mapPoints points tour = some pts) :
    ∃ fs, update points history tempHistory costHistory frame = some fs ∧
      fs.tourPath = some (pts ++ pts.take 1) :=
  ⟨_, update_of_tour (tourPathUpdate_of_valid htour hne hpts), rfl⟩

/-- Witness for C7: scenario 1 — tour history `[[0,1,2],[1,2,0]]` over
points `[(0,0),(1,0),(1,1)]` renders exactly 2 frames, and the first frame's
path is the closed loop `(0,0) → (1,0) → (1,1) → (0,0)`. -/
theorem c7_closed_tour_path_witness :
    (driverFrames 2).length = 2 ∧
    ([(0,0),(1,0),(1,1)] ++ ([(0,0),(1,0),(1,1)] : List (ℚ × ℚ)).take 1
      = [(0,0),(1,0),(1,1),(0,0)]) ∧
    (∃ fs, update [(0,0),(1,0),(1,1)] [[0,1,2],[1,2,0]] none none 0 = some fs ∧
      fs.tourPath = some ([(0,0),(1,0),(1,1)] ++ ([(0,0),(1,0),(1,1)] : List (ℚ × ℚ)).take 1)) :=
  ⟨by decide, by decide,
   @c7_closed_tour_path [(0,0),(1,0),(1,1)] [[0,1,2],[1,2,0]] none none 0
     [0,1,2] [(0,0),(1,0),(1,1)] (by decide) (by decide) (by decide)⟩

/-- C8: for any frame whose actual index lies inside the tour history, the
frame update raises no exception; a temperature or cost panel whose optional
history is absent, empty, or too short for the actual index is skipped
(`none`) for that frame, while the tour panel still updates normally. -/
theorem c8_optional_panel_skip {points : List (ℚ × ℚ)} {history : List (List ℕ)}
    {tempHistory costHistory : Option (List ℚ)} {frame : ℕ}
    {tour : List ℕ} {pts : List (ℚ × ℚ)}
    (htour : history[actualFrame history.length frame]? = some tour)
    (hne : tour ≠ []) (hpts : mapPoints points tour = some pts) :
    ∃ fs, update points history tempHistory costHistory frame = some fs ∧
      fs.tourPath = some (pts ++ pts.take 1) ∧
      (panelSkipped tempHistory (actualFrame history.length frame) →
        fs.tempPanel = none) ∧
      (panelSkipped costHistory (actualFrame history.length frame) →
        fs.costPanel = none) :=
  ⟨_, update_of_tour (tourPathUpdate_of_valid htour hne hpts), rfl,
   fun hts => tempPanelUpdate_of_skipped hts,
   fun hcs => costPanelUpdate_of_skipped hcs⟩

/-- Witness for C8: scenario 4 — tour history of length 10, cost history of
length 5, temperature history absent, at frame 5 (actual index 5): the cost
panel's guard is indeed failed, the update succeeds, the cost and
temperature panels stay untouched and the tour panel updates. -/
theorem c8_optional_panel_skip_witness :
    panelSkipped (some [5,4,3,2,1])
      (actualFrame ([[0],[0],[0],[0],[0],[0],[0],[0],[0],[0]] : List (List ℕ)).length 5) ∧
    (∃ fs, update [(0,0)] [[0],[0],[0],[0],[0],[0],[0],[0],[0],[0]]
        none (some [5,4,3,2,1]) 5 = some fs ∧
      fs.tourPath = some ([(0,0)] ++ ([(0,0)] : List (ℚ × ℚ)).take 1) ∧
      (panelSkipped none
        (actualFrame ([[0],[0],[0],[0],[0],[0],[0],[0],[0],[0]] : List (List ℕ)).length 5) →
        fs.tempPanel = none) ∧
      (panelSkipped (some [5,4,3,2,1])
        (actualFrame ([[0],[0],[0],[0],[0],[0],[0],[0],[0],[0]] : List (List ℕ)).length 5) →
        fs.costPanel = none)) :=
  ⟨Or.inr (by decide),
   @c8_optional_panel_skip [(0,0)] [[0],[0],[0],[0],[0],[0],[0],[0],[0],[0]]
     none (some [5,4,3,2,1]) 5 [0] [(0,0)] (by decide) (by decide) (by decide)⟩

/-- C9 counterexample: for points `[(0,0)]` and tour history `[[0],[1]]` the
second tour references the out-of-range point index 1, yet initialization
succeeds (no fail-fast); the failure only happens mid-animation, when the
frame update reaches that tour. -/
theorem c9_counterexample :
    (init [(0,0)] [[0],[1]] none none).isSome = true ∧
    update [(0,0)] [[0],[1]] none none 1 = none :=
  ⟨by decide, by decide⟩

/-- C9 (amended): failing fast at initialization holds only for the first
tour: an empty tour history, or an out-of-range point index in `history[0]`,
makes `init` fail before any frame is drawn; an out-of-range index occurring
only in a later tour does not fail `init` — it raises mid-animation, at a
frame whose update reaches that tour. -/
theorem c9_fail_fast_amended (points : List (ℚ × ℚ)) (history : List (List ℕ))
    (tempHistory costHistory : Option (List ℚ)) :
    (history = [] → init points history tempHistory costHistory = none) ∧
    (∀ tour0 i, history[0]? = some tour0 → i ∈ tour0 → points.length ≤ i →
      init points history tempHistory costHistory = none) ∧
    (∀ frame tour i, history[actualFrame history.length frame]? = some tour →
      i ∈ tour → points.length ≤ i →
      update points history tempHistory costHistory frame = none) := by
  refine ⟨?_, ?_, ?_⟩
  · rintro rfl
    rfl
  · intro tour0 i h0 hi hlen
    rw [init, h0]
    simp [mapPoints_eq_none ⟨i, hi, hlen⟩]
  · intro frame tour i htour hi hlen
    have hlt : actualFrame history.length frame < history.length :=
      (List.getElem?_eq_some_iff.mp htour).1
    have hnil : tour ≠ [] := by rintro rfl; simp at hi
    obtain ⟨t0, ts, rfl⟩ : ∃ t0 ts, tour = t0 :: ts := by
      cases tour with
      | nil => exact absurd rfl hnil
      | cons a b => exact ⟨a, b, rfl⟩
    have hi2 : i ∈ t0 :: (ts ++ [t0]) := by
      rcases List.mem_cons.mp hi with rfl | hm
      · exact List.mem_cons_self _ _
      · exact List.mem_cons_of_mem _ (List.mem_append_left _ hm)
    have hmp : mapPoints points (t0 :: (ts ++ [t0])) = none :=
      mapPoints_eq_none ⟨i, hi2, hlen⟩
    apply update_of_tour_none
    rw [tourPathUpdate, if_pos hlt, htour]
    simp [hmp]

/-- Witness for C9 (amended): empty history fails at `init`; an out-of-range
index in the first tour fails at `init`; the index 1 appearing only in the
second tour of `[[0],[1]]` over a single point fails at frame 1's update. -/
theorem c9_fail_fast_amended_witness :
    init [(0,0)] ([] : List (List ℕ)) none none = none ∧
    init [(0,0),(9,9)] [[5]] none none = none ∧
    update [(0,0)] [[0],[1]] none none 1 = none :=
  ⟨(c9_fail_fast_amended [(0,0)] [] none none).1 rfl,
   (c9_fail_fast_amended [(0,0),(9,9)] [[5]] none none).2.1 [5] 5 rfl
     (by decide) (by decide),
   (c9_fail_fast_amended [(0,0)] [[0],[1]] none none).2.2 1 [1] 1
     (by decide) (by decide) (by decide)⟩

/-- C10: the tour block checks its own guard: when the computed actual index
is at or beyond the end of the tour history, the tour path update is skipped
for that frame — no out-of-range lookup is attempted — and the whole frame
update still succeeds with the tour path untouched. -/
theorem c10_tour_guard {points : List (ℚ × ℚ)} {history : List (List ℕ)}
    {tempHistory costHistory : Option (List ℚ)} {frame : ℕ}
    (h : history.length ≤ actualFrame history.length frame) :
    tourPathUpdate points history (actualFrame history.length frame) = some none ∧
    ∃ fs, update points history tempHistory costHistory frame = some fs ∧
      fs.tourPath = none := by
  have htp : tourPathUpdate points history (actualFrame history.length frame) = some none := by
    rw [tourPathUpdate, if_neg (Nat.not_lt.mpr h)]
  exact ⟨htp, _, update_of_tour htp, rfl⟩

/-- Witness for C10: tour history `[[0]]` of length 1 at frame 1 (actual
index 1, past the end): the tour block is skipped without an exception. -/
theorem c10_tour_guard_witness :
    ([[0]] : List (List ℕ)).length ≤ actualFrame ([[0]] : List (List ℕ)).length 1 ∧
    (tourPathUpdate [(0,0)] [[0]] (actualFrame ([[0]] : List (List ℕ)).length 1) = some none ∧
     ∃ fs, update [(0,0)] [[0]] none none 1 = some fs ∧ fs.tourPath = none) :=
  ⟨by decide, @c10_tour_guard [(0,0)] [[0]] none none 1 (by decide)⟩

end AnimatedVisualizer
